import Mathlib

/-!
Verification development for the Attendance Time-Tracking Engine of the
HR_MANAGEMENT backend (`backend/app/services/attendance_service.py` and
`backend/app/core/attendance_ws_manager.py`).

Time model: a timestamp is an integer number of seconds since the Unix
epoch, in UTC.  The office timezone IST is UTC+5:30, i.e. an offset of
19800 seconds.  An IST civil date is modelled by its day index
`⌊(t + 19800) / 86400⌋`, and an IST time-of-day by `(t + 19800) % 86400`.
Python `datetime` comparisons on aware datetimes and on `time` objects
correspond exactly to integer comparisons of these quantities.

All configurable constants are taken at their defaults (no environment
overrides), exactly as `attendance_service.py` computes them.
-/

namespace HRAttendance

def istOffset : Int := 19800
def secsPerDay : Int := 86400

/-- IST civil day index of a UTC timestamp (`.astimezone(IST).date()`). -/
def istDay (t : Int) : Int := (t + istOffset).fdiv secsPerDay

/-- IST time-of-day in seconds of a UTC timestamp (`.astimezone(IST).time()`). -/
def istTod (t : Int) : Int := (t + istOffset).emod secsPerDay

/-- IST hour of a UTC timestamp (`.astimezone(IST).hour`). -/
def istHour (t : Int) : Int := (istTod t).fdiv 3600

/-- UTC timestamp of a given IST day index and IST time-of-day. -/
def utcOfIstDayTod (day tod : Int) : Int := day * secsPerDay - istOffset + tod

-- Defaults from attendance_service.py (env unset).
def SHIFT_START : Int := 9 * 3600
def LATE_THRESHOLD : Int := 9 * 3600 + 30 * 60
def SHIFT_END : Int := 18 * 3600
def BREAK_START_HOUR : Int := 13
def BREAK_END_HOUR : Int := 14
def STANDARD_WORK_SECONDS : Int := 29700
def HALF_DAY_MIN_SECONDS : Int := 4 * 3600
def SECOND_HALF_START : Int := 14 * 3600
def FIRST_HALF_END : Int := 13 * 3600

/-- `_break_window_utc_for_ist_date`: start of the break window, in UTC. -/
def breakStartUtc (day : Int) : Int := utcOfIstDayTod day (BREAK_START_HOUR * 3600)

/-- `_break_window_utc_for_ist_date`: end of the break window, in UTC. -/
def breakEndUtc (day : Int) : Int := utcOfIstDayTod day (BREAK_END_HOUR * 3600)

/-- `_shift_end_utc_for_ist_date`. -/
def shiftEndUtc (day : Int) : Int := utcOfIstDayTod day SHIFT_END

/-- One iteration of the break-overlap loop in `calculate_work_seconds`:
overlap of `[ci, co]` with the break window of the given IST day. -/
def breakOverlapOnDay (ci co day : Int) : Int :=
  let s := max ci (breakStartUtc day)
  let e := min co (breakEndUtc day)
  if e > s then e - s else 0

/-- The full break-overlap loop of `calculate_work_seconds`, iterating IST
calendar days from `istDay ci` to `istDay co` inclusive. -/
def totalBreakOverlap (ci co : Int) : Int :=
  (List.range (istDay co - istDay ci + 1).toNat).foldl
    (fun acc k => acc + breakOverlapOnDay ci co (istDay ci + k)) 0

/-- `calculate_work_seconds(clock_in, clock_out)`. -/
def calculate_work_seconds (ci co : Int) : Int :=
  if co ≤ ci then 0
  else max (co - ci - totalBreakOverlap ci co) 0

/-- One row of `attendance_logs`, with the columns the engine reads or
writes.  `date` is the IST civil day index.  `overtime_hours` is stored in
hundredths of an hour (the Python column is a float, but the engine only
ever writes two-decimal values `round(x, 2)`, which are exactly the
integer centihour multiples). -/
structure Attendance where
  user_id : Int
  date : Int
  clock_in_time : Option Int
  clock_out_time : Option Int
  first_clock_in_time : Option Int
  total_seconds : Int
  status : Option String
  overtime_hours : Int
  half_day_type : Option String
  is_late : Bool
  manual_override : Bool
  is_manual_edit : Bool
  deriving DecidableEq, Repr

/-- Python `round(seconds / 3600, 2)` expressed in centihours: the
round-half-to-even of the exact rational `seconds / 36`
(`seconds / 3600 * 100 = seconds / 36`). -/
def centihoursOfSeconds (seconds : Int) : Int :=
  let f := seconds.fdiv 36
  let r := seconds.emod 36
  if r < 18 then f
  else if 18 < r then f + 1
  else if f % 2 = 0 then f else f + 1

/-- `get_effective_clock_in_time`. -/
def get_effective_clock_in_time (a : Attendance) : Option Int :=
  match a.first_clock_in_time with
  | some t => some t
  | none =>
    match a.clock_in_time with
    | some t => some t
    | none =>
      match a.clock_out_time with
      | some co => if a.total_seconds > 0 then some (co - a.total_seconds) else none
      | none => none

/-- `get_attendance_worked_seconds`. -/
def get_attendance_worked_seconds (a : Attendance) (now : Int) : Int :=
  let base := a.total_seconds
  let total :=
    match a.clock_in_time with
    | some ci =>
      if a.clock_out_time.isNone ∧ a.date = istDay now then
        base + calculate_work_seconds ci now
      else base
    | none => base
  max total 0

/-- The reference "end" instant used by the classifier and the overtime
calculator: the clock-out time, replaced by `now` for a record that is
still open today. -/
def referenceOut (a : Attendance) (now : Int) : Option Int :=
  if a.clock_in_time.isSome ∧ a.clock_out_time.isNone ∧ a.date = istDay now then some now
  else a.clock_out_time

/-- `calculate_overtime_seconds`. -/
def calculate_overtime_seconds (a : Attendance) (worked : Int) (now : Int) : Int :=
  -- a stored value of c centihours is c/100 hours; round(c/100 * 3600) = 36*c exactly
  if a.is_manual_edit ∧ a.overtime_hours > 0 then a.overtime_hours * 36
  else
    let overtime_by_shift_end :=
      match referenceOut a now with
      | some r => max 0 (r - shiftEndUtc a.date)
      | none => 0
    let overtime_by_hours := max 0 (worked - STANDARD_WORK_SECONDS)
    max overtime_by_shift_end overtime_by_hours

/-- `determine_attendance_status`.  The Python function mutates
`attendance.half_day_type` in its half-day branches; the embedding returns
the status together with the (possibly updated) `half_day_type` field. -/
def determine_attendance_status (a : Attendance) (seconds : Int) (now : Int) :
    String × Option String :=
  let manual_status := ((a.status.getD "").trim.toLower)
  if a.is_manual_edit ∧ manual_status ≠ "" then (manual_status, a.half_day_type)
  else
    match get_effective_clock_in_time a with
    | none => ("absent", a.half_day_type)
    | some eci =>
      match referenceOut a now with
      | none => ("in_progress", a.half_day_type)
      | some ro =>
        let start_t := istTod eci
        let end_t := istTod ro
        if SHIFT_START ≤ start_t ∧ start_t ≤ LATE_THRESHOLD ∧ SHIFT_END ≤ end_t then
          ("present", a.half_day_type)
        else if LATE_THRESHOLD < start_t ∧ SHIFT_END < end_t then
          ("late", a.half_day_type)
        else if SHIFT_START ≤ start_t ∧ start_t ≤ LATE_THRESHOLD ∧
            FIRST_HALF_END ≤ end_t ∧ end_t < SECOND_HALF_START ∧
            HALF_DAY_MIN_SECONDS ≤ seconds then
          ("halfday", some "first_half")
        else if SECOND_HALF_START ≤ start_t ∧ SHIFT_END ≤ end_t ∧
            HALF_DAY_MIN_SECONDS ≤ seconds then
          ("halfday", some "second_half")
        else if HALF_DAY_MIN_SECONDS ≤ seconds then
          ("halfday",
            some (a.half_day_type.getD
              (if SECOND_HALF_START ≤ start_t then "second_half" else "first_half")))
        else ("absent", a.half_day_type)

/-- `is_late_entry` of `get_attendance_status_meta`. -/
def is_late_entry_of (a : Attendance) : Bool :=
  match get_effective_clock_in_time a with
  | some t => LATE_THRESHOLD < istTod t
  | none => false

/-- `_sync_status_fields`: recompute `status`, `half_day_type`, `is_late`
and (unless manually edited) `overtime_hours` from the stored times. -/
def _sync_status_fields (a : Attendance) (now : Int) : Attendance :=
  let seconds := get_attendance_worked_seconds a now
  let r1 := determine_attendance_status a seconds now
  let aA : Attendance := { a with half_day_type := r1.2 }
  -- the embedded get_attendance_status_meta call runs the classifier again
  let r2 := determine_attendance_status aA seconds now
  let aB : Attendance := { aA with half_day_type := r2.2 }
  let overtime_seconds := calculate_overtime_seconds aB seconds now
  let aC : Attendance :=
    { aB with
      status := some r1.1,
      half_day_type := if r1.1 = "halfday" then aB.half_day_type else none,
      is_late := is_late_entry_of aB || r1.1 == "late" }
  if aC.is_manual_edit then aC
  else { aC with overtime_hours := centihoursOfSeconds overtime_seconds }

/-- `_close_attendance` (the `_close_running_tasks` call touches the
separate `task_time_logs` table, outside this model). -/
def _close_attendance (a : Attendance) (close_at : Int) : Attendance :=
  match a.clock_in_time with
  | none => a
  | some ci =>
    let effective_close := max close_at ci
    let a1 : Attendance :=
      { a with
        total_seconds := a.total_seconds + calculate_work_seconds ci effective_close,
        clock_out_time := some effective_close,
        clock_in_time := none }
    _sync_status_fields a1 effective_close

/-- `auto_close_if_needed`: returns the updated record and whether a close
happened. -/
def auto_close_if_needed (a : Attendance) (now : Int) : Attendance × Bool :=
  match a.clock_in_time with
  | none => (a, false)
  | some ci =>
    let now_ist_date := istDay now
    let local_day := istDay ci
    let break_start := breakStartUtc local_day
    let shift_end := shiftEndUtc local_day
    if local_day < now_ist_date then (_close_attendance a shift_end, true)
    else if ci < break_start ∧ break_start ≤ now then (_close_attendance a break_start, true)
    else if ci < shift_end ∧ shift_end ≤ now then (_close_attendance a shift_end, true)
    else (a, false)

/-- An "open" record: clock-in set, clock-out not yet set. -/
def isOpenRec (a : Attendance) : Bool := a.clock_in_time.isSome && a.clock_out_time.isNone

/-- Per-row action of the sweeper: rows of the queried user that are open
get `auto_close_if_needed`; every other row is untouched. -/
def sweepStep (uid now : Int) (a : Attendance) : Attendance × Nat :=
  if a.user_id = uid ∧ isOpenRec a then
    let r := auto_close_if_needed a now
    (r.1, if r.2 then 1 else 0)
  else (a, 0)

/-- The database after `auto_close_open_attendances_for_user`. -/
def sweepDb (uid now : Int) (db : List Attendance) : List Attendance :=
  db.map (fun a => (sweepStep uid now a).1)

/-- The closure count returned by `auto_close_open_attendances_for_user`. -/
def sweepCount (uid now : Int) (db : List Attendance) : Nat :=
  (db.map (fun a => (sweepStep uid now a).2)).sum

/-- `auto_close_open_attendances_for_user` over a list-of-rows database. -/
def auto_close_open_attendances_for_user (uid : Int) (db : List Attendance) (now : Int) :
    List Attendance × Nat :=
  (sweepDb uid now db, sweepCount uid now db)

/-- First row matching `user_id == uid AND date == day` (the `.first()`
query of `clock_in` and `_upsert_non_working_attendance`). -/
def findToday (uid day : Int) : List Attendance → Option Attendance
  | [] => none
  | a :: rest => if a.user_id = uid ∧ a.date = day then some a else findToday uid day rest

/-- Replace the first row matching `user_id == uid AND date == day` (the
in-place mutation of that queried row). -/
def replaceToday (uid day : Int) (b : Attendance) : List Attendance → List Attendance
  | [] => []
  | a :: rest =>
    if a.user_id = uid ∧ a.date = day then b :: rest
    else a :: replaceToday uid day b rest

/-- The field resets `_upsert_non_working_attendance` applies to a row. -/
def nonWorkingFields (a : Attendance) (status : String) : Attendance :=
  { a with
    clock_in_time := none,
    clock_out_time := none,
    first_clock_in_time := none,
    total_seconds := 0,
    half_day_type := none,
    is_late := false,
    status := some status,
    is_manual_edit := false,
    manual_override := false }

/-- A freshly constructed `Attendance(user_id=..., date=...)` row with the
model's column defaults. -/
def newAttendance (uid day : Int) : Attendance :=
  { user_id := uid, date := day, clock_in_time := none, clock_out_time := none,
    first_clock_in_time := none, total_seconds := 0, status := none,
    overtime_hours := 0, half_day_type := none, is_late := false,
    manual_override := false, is_manual_edit := false }

/-- `_upsert_non_working_attendance`. -/
def _upsert_non_working_attendance (uid day : Int) (status : String)
    (db : List Attendance) : List Attendance :=
  match findToday uid day db with
  | some a => replaceToday uid day (nonWorkingFields a status) db
  | none => db ++ [nonWorkingFields (newAttendance uid day) status]

/-- The domain errors `clock_in` raises as HTTP 400s. -/
inductive ClockInError where
  | holidayBlocked
  | leaveApprovedBlocked
  | leaveUnapprovedAbsent
  | breakTimeActive
  | alreadyClockedIn
  deriving DecidableEq, Repr

/-- `clock_in(current_user, db)`.  The holiday and leave calendar lookups
(`_is_holiday_for_user`, `_leave_status_for_date`) are collaborator
queries over other tables; they are passed in as `isHoliday` and
`leaveStatus` (the latter being `some "leave"`, `some "absent"` or
`none`, exactly the return values of `_leave_status_for_date`).  Returns
the database after the call together with the result. -/
def clock_in (uid : Int) (isHoliday : Bool) (leaveStatus : Option String)
    (db : List Attendance) (now : Int) :
    List Attendance × Except ClockInError Attendance :=
  let today := istDay now
  let db1 := sweepDb uid now db
  if isHoliday then
    (_upsert_non_working_attendance uid today "holiday" db1,
      .error .holidayBlocked)
  else
    match leaveStatus with
    | some ls =>
      (_upsert_non_working_attendance uid today ls db1,
        .error (if ls = "leave" then .leaveApprovedBlocked else .leaveUnapprovedAbsent))
    | none =>
      if BREAK_START_HOUR ≤ istHour now ∧ istHour now < BREAK_END_HOUR then
        (db1, .error .breakTimeActive)
      else
        match findToday uid today db1 with
        | none =>
          let rec0 : Attendance :=
            { newAttendance uid today with
              clock_in_time := some now,
              first_clock_in_time := some now,
              status := some (if LATE_THRESHOLD < istTod now then "late" else "present"),
              is_late := LATE_THRESHOLD < istTod now }
          (db1 ++ [rec0], .ok rec0)
        | some a =>
          if a.clock_in_time.isSome then (db1, .error .alreadyClockedIn)
          else
            let a1 : Attendance :=
              { a with
                clock_in_time := some now,
                clock_out_time := none,
                first_clock_in_time :=
                  if a.first_clock_in_time.isNone then some now else a.first_clock_in_time,
                is_manual_edit := false,
                manual_override := false,
                status := some (if LATE_THRESHOLD < istTod now then "late" else "present") }
            let a2 := _sync_status_fields a1 now
            (replaceToday uid today a2 db1, .ok a2)

/-- `clock_out(attendance, db)` at instant `now`. -/
def clock_out (a : Attendance) (now : Int) : Except String Attendance :=
  if a.clock_in_time.isNone then .error "Not clocked in"
  else .ok (_close_attendance a now)

/-! ## The change notifier (`attendance_ws_manager.py`)

Connections are modelled by integer ids.  A Python `dict` keyed by
integers is an association list in which assignment to an existing key
overwrites in place and assignment to a new key appends. -/

/-- `AttendanceConnectionManager`: `active_connections` is the dict
`user_id -> websocket`, `stream_connections` the dict
`id(websocket) -> websocket`. -/
structure AttendanceConnectionManager where
  active_connections : List (Int × Int)
  stream_connections : List (Int × Int)
  deriving DecidableEq, Repr

/-- Python dict assignment `d[k] = v`. -/
def dictSet (k v : Int) (l : List (Int × Int)) : List (Int × Int) :=
  if l.any (fun p => p.1 = k) then l.map (fun p => if p.1 = k then (k, v) else p)
  else l ++ [(k, v)]

/-- Python dict lookup `d.get(k)`. -/
def dictGet (k : Int) : List (Int × Int) → Option Int
  | [] => none
  | p :: rest => if p.1 = k then some p.2 else dictGet k rest

/-- `connect(user_id, websocket)`: registers the connection under the
user id. -/
def AttendanceConnectionManager.connect (m : AttendanceConnectionManager)
    (uid ws : Int) : AttendanceConnectionManager :=
  { m with active_connections := dictSet uid ws m.active_connections }

/-- `connect_stream(websocket)`: registers a dashboard-stream connection
under `id(websocket)`. -/
def AttendanceConnectionManager.connect_stream (m : AttendanceConnectionManager)
    (ws : Int) : AttendanceConnectionManager :=
  { m with stream_connections := dictSet ws ws m.stream_connections }

/-- The connections `notify(user_id)` sends the event to (at most the one
stored under the user id; sends assumed to succeed). -/
def AttendanceConnectionManager.notifyRecipients (m : AttendanceConnectionManager)
    (uid : Int) : List Int :=
  match dictGet uid m.active_connections with
  | some ws => [ws]
  | none => []

/-- The connections `notify_streams()` sends the event to. -/
def AttendanceConnectionManager.notifyStreamRecipients
    (m : AttendanceConnectionManager) : List Int :=
  m.stream_connections.map Prod.snd

/-- The connections `notify_attendance_change(user_id)` delivers the
attendance-changed event to. -/
def AttendanceConnectionManager.notifyAttendanceChangeRecipients
    (m : AttendanceConnectionManager) (uid : Int) : List Int :=
  m.notifyRecipients uid ++ m.notifyStreamRecipients

/-! ## Helper lemmas -/

theorem sync_preserves (a : Attendance) (now : Int) :
    (_sync_status_fields a now).total_seconds = a.total_seconds ∧
    (_sync_status_fields a now).clock_in_time = a.clock_in_time ∧
    (_sync_status_fields a now).clock_out_time = a.clock_out_time ∧
    (_sync_status_fields a now).user_id = a.user_id ∧
    (_sync_status_fields a now).date = a.date ∧
    (_sync_status_fields a now).first_clock_in_time = a.first_clock_in_time := by
  unfold _sync_status_fields
  dsimp only
  split <;> simp

theorem close_attendance_clock_in_none (a : Attendance) (t : Int) (ci : Int)
    (h : a.clock_in_time = some ci) :
    (_close_attendance a t).clock_in_time = none := by
  unfold _close_attendance
  rw [h]
  exact (sync_preserves _ _).2.1

theorem close_attendance_clock_out (a : Attendance) (t : Int) (ci : Int)
    (h : a.clock_in_time = some ci) :
    (_close_attendance a t).clock_out_time = some (max t ci) := by
  unfold _close_attendance
  rw [h]
  exact (sync_preserves _ _).2.2.1

theorem work_seconds_nonneg (ci co : Int) : 0 ≤ calculate_work_seconds ci co := by
  unfold calculate_work_seconds
  split
  · exact le_refl 0
  · exact le_max_right _ _

theorem close_attendance_total_mono (a : Attendance) (t : Int) :
    a.total_seconds ≤ (_close_attendance a t).total_seconds := by
  unfold _close_attendance
  cases h : a.clock_in_time with
  | none => exact le_refl _
  | some ci =>
    dsimp only
    rw [(sync_preserves _ _).1]
    dsimp only
    have := work_seconds_nonneg ci (max t ci)
    omega

theorem auto_close_snd_false (a : Attendance) (now : Int)
    (h : (auto_close_if_needed a now).2 = false) :
    (auto_close_if_needed a now).1 = a := by
  cases hci : a.clock_in_time with
  | none => simp [auto_close_if_needed, hci]
  | some ci =>
    by_cases h1 : istDay ci < istDay now
    · simp [auto_close_if_needed, hci, h1] at h
    · by_cases h2 : ci < breakStartUtc (istDay ci) ∧ breakStartUtc (istDay ci) ≤ now
      · simp [auto_close_if_needed, hci, h1, h2] at h
      · by_cases h3 : ci < shiftEndUtc (istDay ci) ∧ shiftEndUtc (istDay ci) ≤ now
        · simp [auto_close_if_needed, hci, h1, h2, h3] at h
        · simp [auto_close_if_needed, hci, h1, h2, h3]

theorem auto_close_snd_true_closed (a : Attendance) (now : Int)
    (h : (auto_close_if_needed a now).2 = true) :
    (auto_close_if_needed a now).1.clock_in_time = none := by
  cases hci : a.clock_in_time with
  | none => simp [auto_close_if_needed, hci] at h
  | some ci =>
    by_cases h1 : istDay ci < istDay now
    · simp [auto_close_if_needed, hci, h1,
        close_attendance_clock_in_none a (shiftEndUtc (istDay ci)) ci hci]
    · by_cases h2 : ci < breakStartUtc (istDay ci) ∧ breakStartUtc (istDay ci) ≤ now
      · simp [auto_close_if_needed, hci, h1, h2,
          close_attendance_clock_in_none a (breakStartUtc (istDay ci)) ci hci]
      · by_cases h3 : ci < shiftEndUtc (istDay ci) ∧ shiftEndUtc (istDay ci) ≤ now
        · simp [auto_close_if_needed, hci, h1, h2, h3,
            close_attendance_clock_in_none a (shiftEndUtc (istDay ci)) ci hci]
        · simp [auto_close_if_needed, hci, h1, h2, h3] at h

theorem auto_close_total_mono (a : Attendance) (now : Int) :
    a.total_seconds ≤ (auto_close_if_needed a now).1.total_seconds := by
  unfold auto_close_if_needed
  cases hci : a.clock_in_time with
  | none => exact le_refl _
  | some ci =>
    dsimp only
    split
    · exact close_attendance_total_mono a _
    · split
      · exact close_attendance_total_mono a _
      · split
        · exact close_attendance_total_mono a _
        · exact le_refl _

theorem sweepStep_skip (uid now : Int) (a : Attendance)
    (h : ¬(a.user_id = uid ∧ isOpenRec a = true)) :
    sweepStep uid now a = (a, 0) := by
  unfold sweepStep
  split
  · rename_i hc
    exact absurd ⟨hc.1, hc.2⟩ h
  · rfl

theorem sweepDb_noop (uid now : Int) (db : List Attendance)
    (h : ∀ a ∈ db, ¬(a.user_id = uid ∧ isOpenRec a = true)) :
    sweepDb uid now db = db := by
  unfold sweepDb
  induction db with
  | nil => rfl
  | cons a rest ih =>
    simp only [List.map_cons]
    rw [sweepStep_skip uid now a (h a (List.mem_cons_self a rest)),
      ih (fun b hb => h b (List.mem_cons_of_mem a hb))]

theorem sweepCount_noop (uid now : Int) (db : List Attendance)
    (h : ∀ a ∈ db, ¬(a.user_id = uid ∧ isOpenRec a = true)) :
    sweepCount uid now db = 0 := by
  unfold sweepCount
  induction db with
  | nil => rfl
  | cons a rest ih =>
    simp only [List.map_cons, List.sum_cons]
    rw [sweepStep_skip uid now a (h a (List.mem_cons_self a rest))]
    simpa using ih (fun b hb => h b (List.mem_cons_of_mem a hb))

/-- One sweep pass fixes every row: a second `sweepStep` at the same `now`
leaves the row unchanged and counts nothing. -/
theorem sweepStep_idem (uid now : Int) (a : Attendance) :
    sweepStep uid now (sweepStep uid now a).1 = ((sweepStep uid now a).1, 0) := by
  by_cases hc : a.user_id = uid ∧ isOpenRec a = true
  · have h1 : (sweepStep uid now a).1 = (auto_close_if_needed a now).1 := by
      unfold sweepStep
      rw [if_pos hc]
    rw [h1]
    cases hcl : (auto_close_if_needed a now).2 with
    | false =>
      rw [auto_close_snd_false a now hcl]
      unfold sweepStep
      rw [if_pos hc]
      dsimp only
      rw [auto_close_snd_false a now hcl, hcl]
      simp
    | true =>
      have hno : ¬((auto_close_if_needed a now).1.user_id = uid ∧
          isOpenRec (auto_close_if_needed a now).1 = true) := by
        rintro ⟨-, h2⟩
        unfold isOpenRec at h2
        rw [auto_close_snd_true_closed a now hcl] at h2
        simp at h2
      unfold sweepStep
      rw [if_neg hno]
  · have h1 : sweepStep uid now a = (a, 0) := sweepStep_skip uid now a hc
    rw [h1]
    exact h1

theorem sweepDb_idem (uid now : Int) (db : List Attendance) :
    sweepDb uid now (sweepDb uid now db) = sweepDb uid now db := by
  unfold sweepDb
  rw [List.map_map]
  apply List.map_congr_left
  intro a _
  show (sweepStep uid now (sweepStep uid now a).1).1 = (sweepStep uid now a).1
  rw [sweepStep_idem]

theorem sweepCount_after_sweep (uid now : Int) (db : List Attendance) :
    sweepCount uid now (sweepDb uid now db) = 0 := by
  unfold sweepCount sweepDb
  rw [List.map_map]
  apply List.sum_eq_zero
  intro x hx
  obtain ⟨a, _, rfl⟩ := List.mem_map.mp hx
  show (sweepStep uid now (sweepStep uid now a).1).2 = 0
  rw [sweepStep_idem]

/-- C7: sweeping a user with no open records mutates nothing and returns 0
closures, and an immediately repeated sweep at the same instant after any
sweep returns 0 and leaves every record unchanged (idempotence). -/
theorem C7_sweep_noop_and_idempotent (uid now : Int) (db : List Attendance) :
    ((∀ a ∈ db, ¬(a.user_id = uid ∧ isOpenRec a = true)) →
      auto_close_open_attendances_for_user uid db now = (db, 0)) ∧
    auto_close_open_attendances_for_user uid
        (auto_close_open_attendances_for_user uid db now).1 now =
      ((auto_close_open_attendances_for_user uid db now).1, 0) := by
  constructor
  · intro h
    unfold auto_close_open_attendances_for_user
    rw [sweepDb_noop uid now db h, sweepCount_noop uid now db h]
  · unfold auto_close_open_attendances_for_user
    rw [sweepDb_idem, sweepCount_after_sweep]

def recC7 : Attendance :=
  { user_id := 1, date := 20000,
    clock_in_time := none,
    clock_out_time := some (utcOfIstDayTod 20000 (13 * 3600)),
    first_clock_in_time := some (utcOfIstDayTod 20000 (9 * 3600 + 45 * 60)),
    total_seconds := 11700, status := some "absent", overtime_hours := 0,
    half_day_type := none, is_late := true,
    manual_override := false, is_manual_edit := false }

/-- C7 witness: a concrete database whose only record for user 1 is
closed; the sweep returns it unchanged with 0 closures. -/
theorem C7_witness :
    (∀ a ∈ [recC7], ¬(a.user_id = 1 ∧ isOpenRec a = true)) ∧
    auto_close_open_attendances_for_user 1 [recC7]
        (utcOfIstDayTod 20000 (19 * 3600)) = ([recC7], 0) :=
  ⟨by decide,
   (C7_sweep_noop_and_idempotent 1 (utcOfIstDayTod 20000 (19 * 3600)) [recC7]).1
     (by decide)⟩

/-- C9: with no open records and neither a holiday nor a leave for the
day, a clock-in during the break window fails with the break-time domain
error and leaves the database exactly as it was. -/
theorem C9_break_time_clock_in_rejected (uid : Int) (db : List Attendance) (now : Int)
    (hopen : ∀ a ∈ db, ¬(a.user_id = uid ∧ isOpenRec a = true))
    (hbreak : BREAK_START_HOUR ≤ istHour now ∧ istHour now < BREAK_END_HOUR) :
    clock_in uid false none db now = (db, .error .breakTimeActive) := by
  unfold clock_in
  dsimp only
  rw [sweepDb_noop uid now db hopen, if_pos hbreak]
  simp

def recC9 : Attendance :=
  { user_id := 5, date := 20000,
    clock_in_time := none,
    clock_out_time := some (utcOfIstDayTod 20000 (12 * 3600)),
    first_clock_in_time := some (utcOfIstDayTod 20000 (9 * 3600)),
    total_seconds := 10800, status := some "absent", overtime_hours := 0,
    half_day_type := none, is_late := false,
    manual_override := false, is_manual_edit := false }

/-- C9 witness: at 13:20 IST the clock-in of user 5 is rejected with the
break-time error and the single stored record is untouched. -/
theorem C9_witness :
    clock_in 5 false none [recC9] (utcOfIstDayTod 20000 (13 * 3600 + 20 * 60)) =
      ([recC9], .error .breakTimeActive) :=
  C9_break_time_clock_in_rejected 5 [recC9] (utcOfIstDayTod 20000 (13 * 3600 + 20 * 60))
    (by decide) (by decide)

theorem breakStartUtc_mono {d d' : Int} (h : d ≤ d') :
    breakStartUtc d ≤ breakStartUtc d' := by
  simp only [breakStartUtc, utcOfIstDayTod, secsPerDay, istOffset, BREAK_START_HOUR]
  omega

theorem breakEndUtc_mono {d d' : Int} (h : d ≤ d') :
    breakEndUtc d ≤ breakEndUtc d' := by
  simp only [breakEndUtc, utcOfIstDayTod, secsPerDay, istOffset, BREAK_END_HOUR]
  omega

theorem foldl_add_eq_of_zero {α : Type} (f : α → Int) (l : List α) (acc : Int)
    (h : ∀ k ∈ l, f k = 0) : l.foldl (fun a k => a + f k) acc = acc := by
  induction l generalizing acc with
  | nil => rfl
  | cons x xs ih =>
    simp only [List.foldl_cons]
    rw [h x (List.mem_cons_self x xs), add_zero]
    exact ih acc (fun k hk => h k (List.mem_cons_of_mem x hk))

theorem totalBreakOverlap_eq_zero (s e : Int)
    (h : ∀ d : Int, min e (breakEndUtc d) ≤ max s (breakStartUtc d)) :
    totalBreakOverlap s e = 0 := by
  unfold totalBreakOverlap
  apply foldl_add_eq_of_zero
  intro k _
  unfold breakOverlapOnDay
  dsimp only
  rw [if_neg (not_lt.mpr (h (istDay s + k)))]

/-- C8: `calculate_work_seconds` returns 0 when `end <= start`; for an
interval that touches no day's break window it returns exactly the
elapsed seconds; and on the spec's example (10:00 to 13:30 IST, break
13:00-14:00) the 30-minute overlap is subtracted, yielding 3 hours. -/
theorem C8_worked_seconds :
    (∀ s e : Int, e ≤ s → calculate_work_seconds s e = 0) ∧
    (∀ s e : Int, s < e →
      (∀ d : Int, min e (breakEndUtc d) ≤ max s (breakStartUtc d)) →
      calculate_work_seconds s e = e - s) ∧
    calculate_work_seconds (utcOfIstDayTod 20000 (10 * 3600))
      (utcOfIstDayTod 20000 (13 * 3600 + 30 * 60)) = 10800 := by
  refine ⟨?_, ?_, ?_⟩
  · intro s e h
    unfold calculate_work_seconds
    rw [if_pos h]
  · intro s e hlt h
    unfold calculate_work_seconds
    rw [if_neg (not_le.mpr hlt), totalBreakOverlap_eq_zero s e h, sub_zero,
      max_eq_left (by omega : (0 : Int) ≤ e - s)]
  · decide

/-- C8 witness: a reversed interval yields 0, and the break-free interval
14:30-15:00 IST yields exactly its 1800 elapsed seconds. -/
theorem C8_witness :
    calculate_work_seconds 200 100 = 0 ∧
    calculate_work_seconds (utcOfIstDayTod 20000 (14 * 3600 + 1800))
      (utcOfIstDayTod 20000 (15 * 3600)) = 1800 := by
  constructor
  · exact C8_worked_seconds.1 200 100 (by norm_num)
  · have hfree : ∀ d : Int,
        min (utcOfIstDayTod 20000 (15 * 3600)) (breakEndUtc d) ≤
          max (utcOfIstDayTod 20000 (14 * 3600 + 1800)) (breakStartUtc d) := by
      intro d
      rcases le_or_lt d 20000 with hd | hd
      · calc min (utcOfIstDayTod 20000 (15 * 3600)) (breakEndUtc d)
            ≤ breakEndUtc d := min_le_right _ _
          _ ≤ breakEndUtc 20000 := breakEndUtc_mono hd
          _ ≤ utcOfIstDayTod 20000 (14 * 3600 + 1800) := by
              simp only [breakEndUtc, utcOfIstDayTod, secsPerDay, istOffset, BREAK_END_HOUR]
              omega
          _ ≤ max (utcOfIstDayTod 20000 (14 * 3600 + 1800)) (breakStartUtc d) :=
              le_max_left _ _
      · calc min (utcOfIstDayTod 20000 (15 * 3600)) (breakEndUtc d)
            ≤ utcOfIstDayTod 20000 (15 * 3600) := min_le_left _ _
          _ ≤ breakStartUtc 20001 := by
              simp only [breakStartUtc, utcOfIstDayTod, secsPerDay, istOffset, BREAK_START_HOUR]
              omega
          _ ≤ breakStartUtc d := breakStartUtc_mono (by omega)
          _ ≤ max (utcOfIstDayTod 20000 (14 * 3600 + 1800)) (breakStartUtc d) :=
              le_max_right _ _
    have h2 := C8_worked_seconds.2.1 (utcOfIstDayTod 20000 (14 * 3600 + 1800))
      (utcOfIstDayTod 20000 (15 * 3600))
      (by simp only [utcOfIstDayTod, secsPerDay, istOffset]; omega) hfree
    rw [h2]
    simp only [utcOfIstDayTod, secsPerDay, istOffset]
    norm_num

/-! ## The classifier as a function of the decision tuple -/

/-- The status component of `determine_attendance_status`, as a function
of the effective clock-in time-of-day, the reference end time-of-day and
the worked seconds only (proved equal to the classifier's status below). -/
def classifierStatusCore (eciTod refTod : Option Int) (seconds : Int) : String :=
  match eciTod with
  | none => "absent"
  | some start_t =>
    match refTod with
    | none => "in_progress"
    | some end_t =>
      if SHIFT_START ≤ start_t ∧ start_t ≤ LATE_THRESHOLD ∧ SHIFT_END ≤ end_t then
        "present"
      else if LATE_THRESHOLD < start_t ∧ SHIFT_END < end_t then "late"
      else if SHIFT_START ≤ start_t ∧ start_t ≤ LATE_THRESHOLD ∧
          FIRST_HALF_END ≤ end_t ∧ end_t < SECOND_HALF_START ∧
          HALF_DAY_MIN_SECONDS ≤ seconds then
        "halfday"
      else if SECOND_HALF_START ≤ start_t ∧ SHIFT_END ≤ end_t ∧
          HALF_DAY_MIN_SECONDS ≤ seconds then
        "halfday"
      else if HALF_DAY_MIN_SECONDS ≤ seconds then "halfday"
      else "absent"

theorem determine_status_factors (a : Attendance) (seconds now : Int)
    (hm : a.is_manual_edit = false) :
    (determine_attendance_status a seconds now).1 =
      classifierStatusCore ((get_effective_clock_in_time a).map istTod)
        ((referenceOut a now).map istTod) seconds := by
  unfold determine_attendance_status classifierStatusCore
  rw [hm]
  cases he : get_effective_clock_in_time a with
  | none => simp
  | some eci =>
    cases hr : referenceOut a now with
    | none => simp
    | some ro =>
      simp only [Option.map_some', Bool.false_eq_true, false_and, if_false]
      split_ifs <;> rfl

theorem referenceOut_of_closed (a : Attendance) (now co : Int)
    (h : a.clock_out_time = some co) : referenceOut a now = some co := by
  unfold referenceOut
  rw [h]
  simp

/-- C6 (amended): with no manual override, the returned status is a
function of the effective clock-in time-of-day, the reference end
time-of-day and the worked seconds alone — identical across any two
records and instants agreeing on that tuple, regardless of any other
prior record state. -/
theorem C6_classifier_status_deterministic (a1 a2 : Attendance) (s now1 now2 : Int)
    (hm1 : a1.is_manual_edit = false) (hm2 : a2.is_manual_edit = false)
    (hs : (get_effective_clock_in_time a1).map istTod =
      (get_effective_clock_in_time a2).map istTod)
    (hr : (referenceOut a1 now1).map istTod = (referenceOut a2 now2).map istTod) :
    (determine_attendance_status a1 s now1).1 =
      (determine_attendance_status a2 s now2).1 := by
  rw [determine_status_factors a1 s now1 hm1, determine_status_factors a2 s now2 hm2,
    hs, hr]

def recC6 : Attendance :=
  { user_id := 2, date := 20000,
    clock_in_time := none,
    clock_out_time := some (utcOfIstDayTod 20000 (16 * 3600)),
    first_clock_in_time := some (utcOfIstDayTod 20000 (10 * 3600)),
    total_seconds := 18000, status := none, overtime_hours := 0,
    half_day_type := none, is_late := false,
    manual_override := false, is_manual_edit := false }

/-- C6 counterexample: the classifier is not side-effect-free on the
record: on this record it changes the stored `half_day_type` from `none`
to `some "first_half"` while classifying. -/
theorem C6_counterexample :
    (determine_attendance_status recC6 18000 (utcOfIstDayTod 20000 (19 * 3600))).2 =
        some "first_half" ∧
    recC6.half_day_type = none :=
  ⟨rfl, rfl⟩

/-- C6 witness: two records differing in stored status, half-day type and
clock-in instants, but with the same decision tuple, classify alike. -/
theorem C6_witness :
    (determine_attendance_status recC6 18000 (utcOfIstDayTod 20000 (19 * 3600))).1 =
      (determine_attendance_status
        { recC6 with
          half_day_type := some "second_half", status := some "absent",
          clock_out_time := some (utcOfIstDayTod 20001 (16 * 3600)),
          first_clock_in_time := some (utcOfIstDayTod 20001 (10 * 3600)) }
        18000 (utcOfIstDayTod 20001 (19 * 3600))).1 :=
  C6_classifier_status_deterministic _ _ 18000 _ _ rfl rfl (by decide) (by decide)

theorem classifier_core_early (start_t : Int) (ro : Option Int) (s : Int)
    (hearly : start_t < SHIFT_START) :
    (classifierStatusCore (some start_t) ro s ≠ "present" ∧
      classifierStatusCore (some start_t) ro s ≠ "late") ∧
    (∀ end_t, ro = some end_t → SHIFT_END ≤ end_t →
      (HALF_DAY_MIN_SECONDS ≤ s → classifierStatusCore (some start_t) ro s = "halfday") ∧
      (s < HALF_DAY_MIN_SECONDS → classifierStatusCore (some start_t) ro s = "absent")) := by
  simp only [SHIFT_START] at hearly
  constructor
  · cases ro with
    | none =>
      refine ⟨?_, ?_⟩
      · show ("in_progress" : String) ≠ "present"
        decide
      · show ("in_progress" : String) ≠ "late"
        decide
    | some end_t =>
      unfold classifierStatusCore
      simp only [SHIFT_START, LATE_THRESHOLD, SHIFT_END, FIRST_HALF_END,
        SECOND_HALF_START, HALF_DAY_MIN_SECONDS]
      split_ifs <;> first
        | exact ⟨by decide, by decide⟩
        | (exfalso; omega)
  · rintro end_t rfl hend
    simp only [SHIFT_END] at hend
    unfold classifierStatusCore
    simp only [SHIFT_START, LATE_THRESHOLD, SHIFT_END, FIRST_HALF_END,
      SECOND_HALF_START, HALF_DAY_MIN_SECONDS]
    constructor
    · intro hs
      split_ifs <;> first | rfl | (exfalso; omega)
    · intro hs
      split_ifs <;> first | rfl | (exfalso; omega)

/-- C10: without manual override, a record whose effective clock-in
time-of-day is strictly before the 09:00 shift start is never classified
`present` or `late`; if it moreover has a stored clock-out whose
time-of-day is at or after shift end, it is `halfday` when worked seconds
reach the 4-hour half-day minimum and `absent` otherwise. -/
theorem C10_early_clock_in_classification (a : Attendance) (s now eci : Int)
    (hm : a.is_manual_edit = false)
    (he : get_effective_clock_in_time a = some eci)
    (hearly : istTod eci < SHIFT_START) :
    ((determine_attendance_status a s now).1 ≠ "present" ∧
      (determine_attendance_status a s now).1 ≠ "late") ∧
    (∀ co, a.clock_out_time = some co → SHIFT_END ≤ istTod co →
      (HALF_DAY_MIN_SECONDS ≤ s → (determine_attendance_status a s now).1 = "halfday") ∧
      (s < HALF_DAY_MIN_SECONDS → (determine_attendance_status a s now).1 = "absent")) := by
  have hf := determine_status_factors a s now hm
  rw [he] at hf
  simp only [Option.map_some'] at hf
  have hcore := classifier_core_early (istTod eci) ((referenceOut a now).map istTod) s hearly
  constructor
  · rw [hf]
    exact hcore.1
  · intro co hco hend
    rw [hf]
    have hro : (referenceOut a now).map istTod = some (istTod co) := by
      rw [referenceOut_of_closed a now co hco, Option.map_some']
    exact hcore.2 (istTod co) hro hend

def recC10 : Attendance :=
  { user_id := 3, date := 20000,
    clock_in_time := none,
    clock_out_time := some (utcOfIstDayTod 20000 (18 * 3600 + 1800)),
    first_clock_in_time := some (utcOfIstDayTod 20000 (8 * 3600)),
    total_seconds := 20000, status := none, overtime_hours := 0,
    half_day_type := none, is_late := false,
    manual_override := false, is_manual_edit := false }

/-- C10 witness: an 08:00 IST arrival closed at 18:30 IST with 20000
worked seconds is classified `halfday`. -/
theorem C10_witness :
    (determine_attendance_status recC10 20000 (utcOfIstDayTod 20000 (19 * 3600))).1 =
      "halfday" :=
  ((C10_early_clock_in_classification recC10 20000 (utcOfIstDayTod 20000 (19 * 3600))
      (utcOfIstDayTod 20000 (8 * 3600)) rfl rfl (by decide)).2
    (utcOfIstDayTod 20000 (18 * 3600 + 1800)) rfl (by decide)).1 (by decide)

/-! ## C1: the 09:45 open session swept at 19:00 -/

def recC1 : Attendance :=
  { user_id := 1, date := 20000,
    clock_in_time := some (utcOfIstDayTod 20000 (9 * 3600 + 45 * 60)),
    clock_out_time := none,
    first_clock_in_time := some (utcOfIstDayTod 20000 (9 * 3600 + 45 * 60)),
    total_seconds := 0, status := some "late", overtime_hours := 0,
    half_day_type := none, is_late := true,
    manual_override := false, is_manual_edit := false }

def nowC1 : Int := utcOfIstDayTod 20000 (19 * 3600)

def sweptC1 : Attendance := (auto_close_if_needed recC1 nowC1).1

/-- C1 counterexample: for the 09:45 IST clock-in still open at 19:00 IST
the same day, `auto_close_if_needed` closes at the 13:00 break-start
boundary, which differs from the 18:00 shift end; the stored status is
not `late` and the computed overtime is not one hour. -/
theorem C1_counterexample :
    (auto_close_if_needed recC1 nowC1).2 = true ∧
    sweptC1.clock_out_time = some (breakStartUtc 20000) ∧
    breakStartUtc 20000 ≠ shiftEndUtc 20000 ∧
    sweptC1.status ≠ some "late" ∧
    calculate_overtime_seconds sweptC1 (get_attendance_worked_seconds sweptC1 nowC1)
      nowC1 ≠ 3600 := by
  decide

/-- C1 (amended): with clock-in 09:45 IST and the sweeper running at
19:00 IST the same day, `AutoClose` fires at the 13:00 break-start
boundary (the break branch precedes the shift-end branch); the record is
closed with 3h15m accumulated, status `absent` (below the 4h half-day
minimum) and computed overtime 0. -/
theorem C1_auto_close_fires_at_break_start :
    (auto_close_if_needed recC1 nowC1).2 = true ∧
    sweptC1.clock_out_time = some (breakStartUtc 20000) ∧
    sweptC1.clock_in_time = none ∧
    sweptC1.total_seconds = 11700 ∧
    sweptC1.status = some "absent" ∧
    sweptC1.overtime_hours = 0 ∧
    calculate_overtime_seconds sweptC1 (get_attendance_worked_seconds sweptC1 nowC1)
      nowC1 = 0 := by
  decide

/-! ## C4: the close instant stored by clock-out -/

/-- C4 (amended): clocking out an open record stores
`max(now, clockInTime)` as the clock-out time; no clamping to the
shift-end boundary happens in `clock_out` itself. -/
theorem C4_clock_out_stores_unclamped_close (a : Attendance) (now ci : Int)
    (h : a.clock_in_time = some ci) :
    clock_out a now = Except.ok (_close_attendance a now) ∧
    (_close_attendance a now).clock_out_time = some (max now ci) := by
  constructor
  · unfold clock_out
    rw [h]
    rfl
  · exact close_attendance_clock_out a now ci h

def recC4 : Attendance :=
  { user_id := 1, date := 20000,
    clock_in_time := some (utcOfIstDayTod 20000 (17 * 3600)),
    clock_out_time := none,
    first_clock_in_time := some (utcOfIstDayTod 20000 (17 * 3600)),
    total_seconds := 0, status := some "late", overtime_hours := 0,
    half_day_type := none, is_late := true,
    manual_override := false, is_manual_edit := false }

/-- C4 counterexample: a clock-out at 19:00 IST of a record opened at
17:00 IST stores 19:00 as the clock-out time, while
`min(now, shiftEndBoundary)` would be 18:00. -/
theorem C4_counterexample :
    ((clock_out recC4 nowC1).toOption.map Attendance.clock_out_time) =
      some (some nowC1) ∧
    nowC1 ≠ min nowC1 (shiftEndUtc 20000) := by
  decide

/-- C4 witness: the amended statement instantiated at the 17:00-open,
19:00-close record. -/
theorem C4_witness :
    clock_out recC4 nowC1 = Except.ok (_close_attendance recC4 nowC1) ∧
    (_close_attendance recC4 nowC1).clock_out_time =
      some (max nowC1 (utcOfIstDayTod 20000 (17 * 3600))) :=
  C4_clock_out_stores_unclamped_close recC4 nowC1 (utcOfIstDayTod 20000 (17 * 3600)) rfl

/-! ## C5: the notifier registry -/

theorem dictGet_map_set (k v : Int) (l : List (Int × Int)) :
    dictGet k (l.map (fun p => if p.1 = k then (k, v) else p)) =
      if l.any (fun p => p.1 = k) then some v else dictGet k l := by
  induction l with
  | nil => simp [dictGet]
  | cons p rest ih =>
    by_cases hp : p.1 = k
    · simp only [List.map_cons, if_pos hp, List.any_cons]
      have hL : dictGet k ((k, v) :: rest.map fun q => if q.1 = k then (k, v) else q) =
          some v := by
        simp only [dictGet]
        simp
      rw [hL]
      simp [hp]
    · simp only [List.map_cons, if_neg hp, List.any_cons]
      have hL : dictGet k (p :: rest.map fun q => if q.1 = k then (k, v) else q) =
          dictGet k (rest.map fun q => if q.1 = k then (k, v) else q) := by
        simp only [dictGet]
        rw [if_neg hp]
      have hR : dictGet k (p :: rest) = dictGet k rest := by
        simp only [dictGet]
        rw [if_neg hp]
      rw [hL, hR, ih]
      simp only [decide_eq_false hp, Bool.false_or]

theorem dictGet_append_new (k v : Int) (l : List (Int × Int))
    (h : l.any (fun p => p.1 = k) = false) :
    dictGet k (l ++ [(k, v)]) = some v := by
  induction l with
  | nil => simp [dictGet]
  | cons p rest ih =>
    simp only [List.any_cons, Bool.or_eq_false_iff] at h
    simp only [List.cons_append]
    unfold dictGet
    rw [if_neg (by simpa using h.1)]
    exact ih h.2

theorem dictGet_dictSet_self (k v : Int) (l : List (Int × Int)) :
    dictGet k (dictSet k v l) = some v := by
  unfold dictSet
  split
  · rename_i hany
    rw [dictGet_map_set, if_pos hany]
  · rename_i hany
    have h0 : (l.any fun p => p.1 = k) = false := by
      cases h : (l.any fun p => p.1 = k) with
      | false => rfl
      | true => exact absurd h hany
    exact dictGet_append_new k v l h0

/-- C5 (amended): the registry keeps a single live connection per user id
(dict assignment), so a second subscribe for the same user replaces the
first: after two connects, the attendance-changed event for that user is
delivered to the most recent connection (plus the dashboard-stream
subscribers) only. -/
theorem C5_second_subscribe_replaces (m : AttendanceConnectionManager)
    (uid w1 w2 : Int) :
    ((m.connect uid w1).connect uid w2).notifyAttendanceChangeRecipients uid =
      w2 :: m.notifyStreamRecipients := by
  unfold AttendanceConnectionManager.notifyAttendanceChangeRecipients
    AttendanceConnectionManager.notifyRecipients AttendanceConnectionManager.connect
  dsimp only
  rw [dictGet_dictSet_self]
  rfl

/-- C5 counterexample: after `connect 7 100` then `connect 7 200`, only
connection 200 receives the attendance-changed event: connection 100 has
been dropped from the registry, so the registry holds no per-user set. -/
theorem C5_counterexample :
    ((((⟨[], []⟩ : AttendanceConnectionManager).connect 7 100).connect 7
          200).notifyAttendanceChangeRecipients 7) = [200] ∧
    ¬(100 ∈ (((⟨[], []⟩ : AttendanceConnectionManager).connect 7 100).connect 7
          200).notifyAttendanceChangeRecipients 7) := by
  decide

/-! ## C2: clock-in on a closed record with large accumulated seconds -/

def recC2 : Attendance :=
  { user_id := 1, date := 20000,
    clock_in_time := none,
    clock_out_time := some (utcOfIstDayTod 20000 (12 * 3600)),
    first_clock_in_time := some (utcOfIstDayTod 20000 (9 * 3600)),
    total_seconds := 40000, status := some "present", overtime_hours := 0,
    half_day_type := none, is_late := false,
    manual_override := false, is_manual_edit := false }

def nowC2 : Int := utcOfIstDayTod 20000 (15 * 3600)

/-- C2 counterexample: a closed record for today holding 40000 accumulated
seconds (above the 8h15m standard shift) is happily reopened by
`clock_in`: no `ShiftComplete` error exists and no daily cap is checked. -/
theorem C2_counterexample :
    STANDARD_WORK_SECONDS ≤ recC2.total_seconds ∧
    recC2.clock_in_time = none ∧
    recC2.clock_out_time.isSome = true ∧
    ((clock_in 1 false none [recC2] nowC2).2.toOption.map Attendance.clock_in_time) =
      some (some nowC2) := by
  decide

/-- C2 (amended): the code has no daily cap and no ShiftComplete error:
whatever the accumulated seconds, a clock-in that finds a closed record
for today (outside break hours, no holiday or leave) reopens it, setting
its clock-in time to `now` and keeping its accumulated seconds. -/
theorem C2_clock_in_reopens_closed_record (uid : Int) (db : List Attendance)
    (now : Int) (a0 : Attendance)
    (hb : ¬(BREAK_START_HOUR ≤ istHour now ∧ istHour now < BREAK_END_HOUR))
    (hf : findToday uid (istDay now) (sweepDb uid now db) = some a0)
    (hc : a0.clock_in_time = none) :
    ∃ r, (clock_in uid false none db now).2 = Except.ok r ∧
      r.clock_in_time = some now ∧ r.total_seconds = a0.total_seconds := by
  unfold clock_in
  dsimp only
  simp only [Bool.false_eq_true, if_false]
  rw [if_neg hb, hf]
  dsimp only
  simp only [hc, Option.isSome_none, Bool.false_eq_true, if_false]
  refine ⟨_, rfl, ?_, ?_⟩
  · rw [(sync_preserves _ _).2.1]
  · rw [(sync_preserves _ _).1]

/-- C2 witness: the amended statement instantiated at the 40000-second
closed record, reopened at 15:00 IST. -/
theorem C2_witness :
    ∃ r, (clock_in 1 false none [recC2] nowC2).2 = Except.ok r ∧
      r.clock_in_time = some nowC2 ∧ r.total_seconds = recC2.total_seconds :=
  C2_clock_in_reopens_closed_record 1 [recC2] nowC2 recC2 (by decide) (by decide) rfl

/-! ## C3: monotonicity of accumulated seconds -/

def recC3 : Attendance :=
  { user_id := 4, date := 20000,
    clock_in_time := none,
    clock_out_time := some (utcOfIstDayTod 20000 (12 * 3600)),
    first_clock_in_time := some (utcOfIstDayTod 20000 (9 * 3600)),
    total_seconds := 3600, status := some "absent", overtime_hours := 0,
    half_day_type := none, is_late := false,
    manual_override := false, is_manual_edit := false }

def nowC3 : Int := utcOfIstDayTod 20000 (15 * 3600)

/-- C3 counterexample: a clock-in attempt on a day flagged holiday resets
the existing record's 3600 accumulated seconds to 0, with no manual
override involved. -/
theorem C3_counterexample :
    recC3.total_seconds = 3600 ∧
    recC3.is_manual_edit = false ∧
    recC3.manual_override = false ∧
    ((clock_in 4 true none [recC3] nowC3).1.map Attendance.total_seconds) = [0] := by
  decide

theorem sweepStep_total_mono (uid now : Int) (a : Attendance) :
    a.total_seconds ≤ ((sweepStep uid now a).1).total_seconds := by
  unfold sweepStep
  split
  · exact auto_close_total_mono a now
  · exact le_refl _

theorem sweepDb_totals_mono (uid now : Int) (db : List Attendance) :
    List.Forall₂ (fun x y => x.total_seconds ≤ y.total_seconds) db
      (sweepDb uid now db) := by
  unfold sweepDb
  induction db with
  | nil => exact List.Forall₂.nil
  | cons a rest ih => exact List.Forall₂.cons (sweepStep_total_mono uid now a) ih

theorem findToday_props (uid day : Int) (l : List Attendance) (a0 : Attendance)
    (h : findToday uid day l = some a0) : a0.user_id = uid ∧ a0.date = day := by
  induction l with
  | nil => simp [findToday] at h
  | cons a rest ih =>
    by_cases hm : a.user_id = uid ∧ a.date = day
    · simp only [findToday, if_pos hm, Option.some.injEq] at h
      subst h
      exact hm
    · simp only [findToday, if_neg hm] at h
      exact ih h

theorem findToday_replaceToday (uid day : Int) (b : Attendance) (l : List Attendance)
    (hb : b.user_id = uid ∧ b.date = day)
    (h : (findToday uid day l).isSome = true) :
    findToday uid day (replaceToday uid day b l) = some b := by
  induction l with
  | nil => simp [findToday] at h
  | cons a rest ih =>
    by_cases hm : a.user_id = uid ∧ a.date = day
    · simp only [replaceToday, if_pos hm, findToday, if_pos hb]
    · simp only [replaceToday, if_neg hm, findToday] at h ⊢
      exact ih h

/-- C3 (amended): accumulated seconds never decrease through a closing
transition (`_close_attendance`, `auto_close_if_needed`, the sweeper,
`clock_out`) or a non-holiday, non-leave clock-in (a reopen keeps them);
the exception is the holiday/leave synthesis `_upsert_non_working_attendance`,
which resets the day's record to 0 accumulated seconds with no manual
override. -/
theorem C3_total_seconds_monotone_outside_upsert :
    (∀ a t, a.total_seconds ≤ (_close_attendance a t).total_seconds) ∧
    (∀ a now, a.total_seconds ≤ ((auto_close_if_needed a now).1).total_seconds) ∧
    (∀ uid now db, List.Forall₂ (fun x y => x.total_seconds ≤ y.total_seconds) db
      (sweepDb uid now db)) ∧
    (∀ a now r, clock_out a now = Except.ok r → a.total_seconds ≤ r.total_seconds) ∧
    (∀ uid db now r a0, (clock_in uid false none db now).2 = Except.ok r →
      findToday uid (istDay now) (sweepDb uid now db) = some a0 →
      a0.total_seconds ≤ r.total_seconds) ∧
    (∀ uid day st db a0, findToday uid day db = some a0 →
      findToday uid day (_upsert_non_working_attendance uid day st db) =
        some (nonWorkingFields a0 st) ∧
      (nonWorkingFields a0 st).total_seconds = 0) := by
  refine ⟨close_attendance_total_mono, auto_close_total_mono, sweepDb_totals_mono,
    ?_, ?_, ?_⟩
  · intro a now r h
    unfold clock_out at h
    split at h
    · exact absurd h (by simp)
    · simp only [Except.ok.injEq] at h
      subst h
      exact close_attendance_total_mono a now
  · intro uid db now r a0 hok hf
    unfold clock_in at hok
    dsimp only at hok
    simp only [Bool.false_eq_true, if_false] at hok
    by_cases hb : BREAK_START_HOUR ≤ istHour now ∧ istHour now < BREAK_END_HOUR
    · rw [if_pos hb] at hok
      exact absurd hok (by simp)
    · rw [if_neg hb, hf] at hok
      dsimp only at hok
      by_cases hci : a0.clock_in_time.isSome = true
      · rw [if_pos hci] at hok
        exact absurd hok (by simp)
      · rw [if_neg hci] at hok
        dsimp only at hok
        simp only [Except.ok.injEq] at hok
        subst hok
        rw [(sync_preserves _ _).1]
  · intro uid day st db a0 hf
    have hp := findToday_props uid day db a0 hf
    unfold _upsert_non_working_attendance
    rw [hf]
    refine ⟨?_, rfl⟩
    apply findToday_replaceToday
    · exact ⟨hp.1, hp.2⟩
    · rw [hf]
      rfl

/-- C3 witness: the upsert clause applied to the concrete 3600-second
record: the holiday synthesis leaves a matching record with 0 accumulated
seconds. -/
theorem C3_witness :
    findToday 4 20000 (_upsert_non_working_attendance 4 20000 "holiday" [recC3]) =
      some (nonWorkingFields recC3 "holiday") ∧
    (nonWorkingFields recC3 "holiday").total_seconds = 0 :=
  C3_total_seconds_monotone_outside_upsert.2.2.2.2.2 4 20000 "holiday" [recC3] recC3
    (by decide)

end HRAttendance
